import Mathlib

/-!
Verification of the webpyro acquisition-and-retention engine.

This file gives a shallow embedding, in Lean 4, of the core algorithms of the
backend: the Modbus register codec and temperature-read flow
(`app/services/modbus_service.py`), the dynamic polling interval
(`app/services/polling_service.py`), the ping-pong buffer
(`app/services/buffer_service.py`), the data-retention engine
(`app/services/data_retention_service.py`), and the pause/resume parameter
path (`app/rs485_client.py`).

Conventions of the embedding:
* Python floats are modelled by the type `FVal` (a rational number, a signed
  infinity, or NaN); arithmetic on in-range temperature values is exact
  rational arithmetic.
* Serial-bus and database I/O is modelled by explicit outcome values
  (oracles) passed to the embedded functions, so every embedded function is a
  pure, executable Lean function.
* Log statements of the source are dropped; error-message strings keep the
  constant prefix of the source message (numeric renderings are elided).
-/

/-! ## Float values

Python float values flowing through the decode path: a finite value
(modelled exactly as a rational), a signed infinity, or NaN.  Chained
comparisons such as `-50 <= t <= 1500` are false on NaN and on infinities,
which `fvalInSanityRange` reproduces. -/

inductive FVal where
  | finite (q : ℚ)
  | inf (neg : Bool)
  | nan
  deriving Repr, DecidableEq

/-! ## Register codec (`modbus_service.py` lines 186-202)

`struct.pack('>HH', r0, r1)` produces the four bytes
`[r0 / 256 % 256, r0 % 256, r1 / 256 % 256, r1 % 256]`, and
`struct.unpack('>f', b)` interprets those bytes, big-endian, as the 32 bits
of an IEEE-754 single-precision float. -/

/-- IEEE-754 binary32 interpretation of a 32-bit pattern. -/
def float32FromBits (b : Nat) : FVal :=
  let sign : Bool := b / 2 ^ 31 % 2 == 1
  let expo : Nat := b / 2 ^ 23 % 2 ^ 8
  let mant : Nat := b % 2 ^ 23
  if expo = 255 then
    if mant = 0 then FVal.inf sign else FVal.nan
  else
    let mag : ℚ :=
      if expo = 0 then (mant : ℚ) * (2 : ℚ) ^ (-(149 : ℤ))
      else ((2 ^ 23 + mant : ℕ) : ℚ) * (2 : ℚ) ^ ((expo : ℤ) - 150)
    FVal.finite (if sign then -mag else mag)

/-- `struct.pack('>H', r)`: one 16-bit register as two big-endian bytes. -/
def packBE16 (r : Nat) : List Nat :=
  [r / 256 % 256, r % 256]

/-- Big-endian byte sequence read back as an unsigned integer
(`struct.unpack` of the packed bytes). -/
def bytesBE (bytes : List Nat) : Nat :=
  bytes.foldl (fun acc b => acc * 256 + b) 0

/-- `struct.unpack('>f', struct.pack('>HH', r0, r1))[0]`: the two 16-bit
registers packed big-endian (register 0 first) and decoded as binary32. -/
def decodeFloat32BE (r0 r1 : Nat) : FVal :=
  float32FromBits (bytesBE (packBE16 r0 ++ packBE16 r1))

/-- The primary-value decode of `read_temperature` (lines 186-202):
one register is taken as a raw fixed-point integer, two registers are decoded
as a big-endian binary32 float; a missing register index is `none`
(an `IndexError` in the source, caught by the outer handler), as is an
unsupported register count. -/
def decodePrimary (registerCount : Nat) (registers : List Nat) : Option FVal :=
  if registerCount = 1 then
    match registers[0]? with
    | some r => some (FVal.finite ((r : ℕ) : ℚ))
    | none => none
  else if registerCount = 2 then
    match registers[0]?, registers[1]? with
    | some r0, some r1 => some (decodeFloat32BE r0 r1)
    | _, _ => none
  else none

/-! ## Rounding (`round(x, 2)` on values that pass the sanity check) -/

/-- Round-half-to-even on an exact rational (the idealised behaviour of
Python `round` on a float). -/
def roundHalfEven (x : ℚ) : ℤ :=
  let f := Int.floor x
  if x - f < 1 / 2 then f
  else if x - f > 1 / 2 then f + 1
  else if f % 2 = 0 then f else f + 1

/-- Python `round(q, 2)` on an exact rational. -/
def roundTo2 (q : ℚ) : ℚ :=
  (roundHalfEven (q * 100) : ℚ) / 100

/-- `round(v, 2)` lifted to float values (identity on infinities and NaN). -/
def fvalRound2 (v : FVal) : FVal :=
  match v with
  | FVal.finite q => FVal.finite (roundTo2 q)
  | v => v

/-! ## Sanity bound (`modbus_service.py` lines 204-213) -/

/-- The chained Python comparison `-50 <= temperature <= 1500`; false on NaN
and infinities. -/
def fvalInSanityRange (v : FVal) : Bool :=
  match v with
  | FVal.finite q => decide ((-50 : ℚ) ≤ q) && decide (q ≤ 1500)
  | FVal.inf _ => false
  | FVal.nan => false

/-! ## Raw hex rendering (`' '.join(f'04X' formatted registers)`) -/

/-- One hexadecimal digit (uppercase). -/
def hexDigit (n : Nat) : Char :=
  if n < 10 then Char.ofNat (48 + n) else Char.ofNat (55 + n)

/-- A register rendered as four uppercase hex digits. -/
def toHex4 (n : Nat) : String :=
  String.mk [hexDigit (n / 4096 % 16), hexDigit (n / 256 % 16),
    hexDigit (n / 16 % 16), hexDigit (n % 16)]

/-- `' '.join(f'04X' formatted reg for reg in registers)`. -/
def rawHexString (regs : List Nat) : String :=
  String.intercalate " " (regs.map toHex4)

/-! ## `ModbusService.read_temperature` (`modbus_service.py` lines 98-271) -/

/-- The `device_config` dict handed to `read_temperature` by the polling
loop (`polling_service.py` lines 194-203). -/
structure DeviceConfigIn where
  id : Nat
  name : String
  slave_id : Nat
  baud_rate : Nat
  com_port : String
  function_code : Nat
  start_register : Nat
  register_count : Nat
  deriving Repr, DecidableEq

/-- Outcome of one Modbus register-read request on the wire: an error
response (`response.isError()`), a successful response carrying register
values, a `ModbusException`, or any other exception raised by the call. -/
inductive ModbusResponse where
  | errorResponse (msg : String)
  | registers (regs : List Nat)
  | raisedModbus (msg : String)
  | raised (msg : String)
  deriving Repr, DecidableEq

/-- Everything the transport does during one `read_temperature` call:
whether `connect` succeeded, and the outcomes of the primary and ambient
register reads (relevant only on the paths that reach them). -/
structure BusOutcome where
  connectOk : Bool
  primaryResponse : ModbusResponse
  ambientResponse : ModbusResponse
  deriving Repr, DecidableEq

/-- The result dict of `read_temperature` (lines 104-113).  The `timestamp`
field is the ISO string captured at entry; it is threaded through as an
opaque parameter. -/
structure ReadResult where
  device_id : Nat
  device_name : String
  temperature : Option FVal
  ambient_temp : Option FVal
  status : String
  raw_hex : String
  timestamp : String
  error_message : String
  deriving Repr, DecidableEq

/-- The initial result dict (lines 104-113): `Err` status, null values,
empty strings. -/
def initialResult (cfg : DeviceConfigIn) (now : String) : ReadResult :=
  { device_id := cfg.id, device_name := cfg.name, temperature := none,
    ambient_temp := none, status := "Err", raw_hex := "", timestamp := now,
    error_message := "" }

/-- The ambient-temperature sub-read (lines 215-257): decode the ambient
registers exactly as the primary ones; keep the rounded value only when the
response succeeded, the decode succeeded and the value passed the sanity
bound; every failure leaves ambient `None` and is swallowed. -/
def readAmbient (registerCount : Nat) (resp : ModbusResponse) : Option FVal :=
  match resp with
  | ModbusResponse.registers regs =>
    match decodePrimary registerCount regs with
    | some v => if fvalInSanityRange v then some (fvalRound2 v) else none
    | none => none
  | _ => none

/-- `ModbusService.read_temperature` (lines 98-271), over an explicit bus
outcome.  Mirrors the source path by path: connection failure, invalid
function code, error response, exceptions, raw-hex capture, decode by
register count, sanity check, then the optional ambient read. -/
def read_temperature (cfg : DeviceConfigIn) (bus : BusOutcome) (now : String) :
    ReadResult :=
  let result := initialResult cfg now
  if !bus.connectOk then
    { result with error_message := "Cannot connect to " ++ cfg.com_port }
  else if cfg.function_code ≠ 3 ∧ cfg.function_code ≠ 4 then
    { result with error_message :=
        "Invalid function code: " ++ toString cfg.function_code }
  else
    match bus.primaryResponse with
    | ModbusResponse.errorResponse msg =>
      { result with error_message := "Modbus error: " ++ msg }
    | ModbusResponse.raisedModbus msg =>
      { result with error_message := "Modbus exception: " ++ msg }
    | ModbusResponse.raised msg =>
      { result with error_message := "Unexpected error: " ++ msg }
    | ModbusResponse.registers regs =>
      let result := { result with raw_hex := rawHexString regs }
      if cfg.register_count ≠ 1 ∧ cfg.register_count ≠ 2 then
        { result with error_message :=
            "Unsupported register count: " ++ toString cfg.register_count }
      else
        match decodePrimary cfg.register_count regs with
        | none =>
          -- IndexError on registers[i], caught by the outer handler
          { result with error_message :=
              "Unexpected error: list index out of range" }
        | some v =>
          let result :=
            if fvalInSanityRange v then
              { result with temperature := some (fvalRound2 v), status := "OK" }
            else
              { result with
                  temperature := some v
                  status := "Err"
                  error_message := "Temperature out of range" }
          { result with
              ambient_temp := readAmbient cfg.register_count bus.ambientResponse }

/-! ## Dynamic polling interval
(`polling_service.py` lines 131-156, `config.py` lines 20-28) -/

/-- The configuration fields consumed by
`PollingService._calculate_dynamic_interval` (`config.py`). -/
structure PollingSettings where
  modbus_enable_dynamic_polling : Bool
  modbus_poll_interval : ℚ
  modbus_per_device_time : ℚ
  modbus_min_poll_interval : ℚ
  modbus_max_poll_interval : ℚ
  modbus_safety_factor : ℚ
  deriving Repr, DecidableEq

/-- The defaults of `config.py` lines 20-28: static interval 20 s, dynamic
polling enabled, 0.5 s per device, bounds [1, 20] s, safety factor 2.5. -/
def defaultPollingSettings : PollingSettings :=
  { modbus_enable_dynamic_polling := true
    modbus_poll_interval := 20
    modbus_per_device_time := 1 / 2
    modbus_min_poll_interval := 1
    modbus_max_poll_interval := 20
    modbus_safety_factor := 5 / 2 }

/-- `PollingService._calculate_dynamic_interval` (lines 131-156): the static
interval when dynamic polling is disabled, otherwise
`max(min_interval, min(num_devices * per_device_time * safety_factor,
max_interval))`. -/
def calculate_dynamic_interval (s : PollingSettings) (num_devices : Nat) : ℚ :=
  if !s.modbus_enable_dynamic_polling then s.modbus_poll_interval
  else
    let calculated_interval : ℚ :=
      (num_devices : ℚ) * s.modbus_per_device_time * s.modbus_safety_factor
    max s.modbus_min_poll_interval
      (min calculated_interval s.modbus_max_poll_interval)

/-! ## Data retention (`data_retention_service.py`)

The `device_readings` table is modelled as a list of rows.  Only the columns
the retention engine reads are kept: the `id` primary key and the `ts_utc`
timestamp (a rational number of days since an arbitrary epoch). -/

/-- One row of `device_readings` as seen by the retention engine. -/
structure StoredReading where
  id : Nat
  ts_utc : ℚ
  deriving Repr, DecidableEq

/-- `cutoff_date = datetime.now(timezone.utc) - timedelta(days=retention_days)`
(`daily_cleanup`, line 141). -/
def retentionCutoff (now retention_days : ℚ) : ℚ :=
  now - retention_days

/-- `DataRetentionService.daily_cleanup` (lines 121-213) on the table state:
count the rows strictly older than the cutoff; if none, return unchanged
(the early no-op return at line 155), otherwise delete exactly the rows with
`ts_utc < cutoff` and report how many were deleted. -/
def daily_cleanup (cutoff : ℚ) (rows : List StoredReading) :
    List StoredReading × Nat :=
  let old_count := (rows.filter (fun r => decide (r.ts_utc < cutoff))).length
  if old_count = 0 then (rows, 0)
  else (rows.filter (fun r => !decide (r.ts_utc < cutoff)), old_count)

/-- The ordering used by the `ORDER BY ts_utc ASC` subquery. -/
def tsLe (a b : StoredReading) : Prop :=
  a.ts_utc ≤ b.ts_utc

instance : DecidableRel tsLe :=
  fun a b => inferInstanceAs (Decidable (a.ts_utc ≤ b.ts_utc))

instance : IsTotal StoredReading tsLe :=
  ⟨fun a b => le_total a.ts_utc b.ts_utc⟩

instance : IsTrans StoredReading tsLe :=
  ⟨fun _ _ _ hab hbc => le_trans hab hbc⟩

/-- The table ordered by `ts_utc` ascending (the `ORDER BY ts_utc ASC`
of the oldest-rows subquery; ties broken stably). -/
def sortByTimestamp (rows : List StoredReading) : List StoredReading :=
  rows.insertionSort tsLe

/-- `DataRetentionService.cleanup_on_buffer_flush` (lines 215-255): if the
row count exceeds `max_rows`, select the `total - max_rows` oldest rows by
timestamp and delete the rows whose ids are in that selection; otherwise do
nothing.  Returns the remaining table and the list of deleted rows. -/
def cleanup_on_buffer_flush (max_rows : Nat) (rows : List StoredReading) :
    List StoredReading × List StoredReading :=
  let total_rows := rows.length
  if max_rows < total_rows then
    let excess := total_rows - max_rows
    let oldest := (sortByTimestamp rows).take excess
    let deletedIds := oldest.map (fun r => r.id)
    (rows.filter (fun r => !deletedIds.contains r.id), oldest)
  else (rows, [])

/-! ## Ping-pong buffer (`buffer_service.py`)

The buffered reading dicts built by the polling loop
(`polling_service.py` lines 213-221) and the `device_readings` rows built
from them by `PingPongBuffer._save_buffer_to_db` (lines 136-145).
Timestamps are rationals as in the retention model. -/

/-- The reading dict handed to `PingPongBuffer.add_reading`. -/
structure Reading where
  device_id : Nat
  device_name : String
  temperature : Option FVal
  ambient_temp : Option FVal
  status : String
  raw_hex : String
  timestamp : ℚ
  deriving Repr, DecidableEq

/-- A `DeviceReading` row as constructed by `_save_buffer_to_db`
(lines 136-145).  The `value` column of the schema is `nullable=False`
(`models/device.py` line 51); a `None` temperature is stored as `0.0`.
`created_at` is not modelled. -/
structure DeviceReadingRow where
  device_id : Nat
  device_name : String
  ts_utc : ℚ
  value : FVal
  ambient_temp : Option FVal
  status : String
  raw_hex : String
  deriving Repr, DecidableEq

/-- The row construction of `_save_buffer_to_db` lines 136-145, including
the `reading['temperature'] if reading['temperature'] is not None else 0.0`
substitution on line 140. -/
def toDeviceReadingRow (r : Reading) : DeviceReadingRow :=
  { device_id := r.device_id
    device_name := r.device_name
    ts_utc := r.timestamp
    value := match r.temperature with
             | some v => v
             | none => FVal.finite 0
    ambient_temp := r.ambient_temp
    status := r.status
    raw_hex := r.raw_hex }

/-- What the database does during one `_save_buffer_to_db` call: whether the
batched `add_all`/`commit` succeeds, and, if it does not, which individual
rows commit successfully on the row-by-row retry. -/
structure FlushOutcome where
  batchOk : Bool
  rowOk : DeviceReadingRow → Bool

/-- The accounting of one `_save_buffer_to_db` call: the rows durably
committed, the readings skipped because their device id is not in
`device_settings`, and the rows dropped by individual insert failures. -/
structure FlushResult where
  persisted : List DeviceReadingRow
  skipped_invalid_devices : Nat
  dropped_rows : Nat
  deriving Repr, DecidableEq

/-- `PingPongBuffer._save_buffer_to_db` (lines 106-196): an empty batch
returns immediately; readings whose `device_id` is not among the valid ids
are skipped and counted; if nothing remains, return; otherwise try the
batched insert, and on its failure commit row by row, dropping the rows
whose individual commit fails. -/
def save_buffer_to_db (validIds : List Nat) (oc : FlushOutcome)
    (readings : List Reading) : FlushResult :=
  if readings.isEmpty then
    { persisted := [], skipped_invalid_devices := 0, dropped_rows := 0 }
  else
    let skipped :=
      (readings.filter (fun r => !validIds.contains r.device_id)).length
    let db_readings :=
      (readings.filter (fun r => validIds.contains r.device_id)).map
        toDeviceReadingRow
    if db_readings.isEmpty then
      { persisted := [], skipped_invalid_devices := skipped, dropped_rows := 0 }
    else if oc.batchOk then
      { persisted := db_readings, skipped_invalid_devices := skipped,
        dropped_rows := 0 }
    else
      { persisted := db_readings.filter oc.rowOk
        skipped_invalid_devices := skipped
        dropped_rows := (db_readings.filter (fun d => !oc.rowOk d)).length }

/-- One recorded flush: the database outcome it ran against, the batch of
readings handed to `_save_buffer_to_db`, and the resulting accounting. -/
structure FlushRecord where
  outcome : FlushOutcome
  batch : List Reading
  result : FlushResult

/-- The `PingPongBuffer` state: the two slots, the active marker
(`active_buffer == 'a'`), the lifetime persisted total, and the log of the
flushes performed so far (`flush_count` indexes the outcome oracle). -/
structure BufferState where
  buffer_a : List Reading
  buffer_b : List Reading
  active_buffer_a : Bool
  total_saved : Nat
  flush_log : List FlushRecord
  flush_count : Nat

/-- `PingPongBuffer.__init__`: both slots empty, slot A active. -/
def initBufferState : BufferState :=
  { buffer_a := [], buffer_b := [], active_buffer_a := true, total_saved := 0,
    flush_log := [], flush_count := 0 }

/-- Perform one `_save_buffer_to_db` call on `batch` (the slot copy), record
it in the log and add the committed rows to `total_saved` (lines 162, 180). -/
def doFlush (validIds : List Nat) (oc : FlushOutcome) (batch : List Reading)
    (s : BufferState) : BufferState :=
  let res := save_buffer_to_db validIds oc batch
  { s with
      total_saved := s.total_saved + res.persisted.length
      flush_log := s.flush_log ++ [⟨oc, batch, res⟩]
      flush_count := s.flush_count + 1 }

/-- `PingPongBuffer.add_reading` (lines 55-104): append to the active slot;
when the slot length reaches `max_size`, switch the active marker, flush a
copy of the full slot, and clear it.  The background flush thread is modelled
synchronously; `ocs` supplies the database outcome of the n-th flush. -/
def add_reading (max_size : Nat) (validIds : List Nat)
    (ocs : Nat → FlushOutcome) (s : BufferState) (r : Reading) : BufferState :=
  if s.active_buffer_a then
    let a := s.buffer_a ++ [r]
    if max_size ≤ a.length then
      doFlush validIds (ocs s.flush_count) a
        { s with buffer_a := [], active_buffer_a := false }
    else { s with buffer_a := a }
  else
    let b := s.buffer_b ++ [r]
    if max_size ≤ b.length then
      doFlush validIds (ocs s.flush_count) b
        { s with buffer_b := [], active_buffer_a := true }
    else { s with buffer_b := b }

/-- `PingPongBuffer.flush_all` (lines 198-213): flush slot A if non-empty,
then slot B if non-empty, clearing each. -/
def flush_all (validIds : List Nat) (ocs : Nat → FlushOutcome)
    (s : BufferState) : BufferState :=
  let s1 :=
    if s.buffer_a.isEmpty then s
    else doFlush validIds (ocs s.flush_count) s.buffer_a { s with buffer_a := [] }
  if s1.buffer_b.isEmpty then s1
  else doFlush validIds (ocs s1.flush_count) s1.buffer_b { s1 with buffer_b := [] }

/-- Feed a sequence of readings to `add_reading`, starting from the initial
buffer state. -/
def run_adds (max_size : Nat) (validIds : List Nat) (ocs : Nat → FlushOutcome)
    (readings : List Reading) : BufferState :=
  readings.foldl (add_reading max_size validIds ocs) initBufferState

/-- A full buffer lifetime: a sequence of `add_reading` calls followed by the
shutdown `flush_all`. -/
def run_and_flush_all (max_size : Nat) (validIds : List Nat)
    (ocs : Nat → FlushOutcome) (readings : List Reading) : BufferState :=
  flush_all validIds ocs (run_adds max_size validIds ocs readings)

/-- The batches handed to `_save_buffer_to_db` over the run, in order. -/
def flushedBatches (s : BufferState) : List (List Reading) :=
  s.flush_log.map (fun rec => rec.batch)

/-- All rows durably committed over the run, in commit order. -/
def persistedRows (s : BufferState) : List DeviceReadingRow :=
  (s.flush_log.map (fun rec => rec.result.persisted)).flatten

/-- Lifetime count of durably committed rows. -/
def totalPersisted (s : BufferState) : Nat :=
  (s.flush_log.map (fun rec => rec.result.persisted.length)).sum

/-- Lifetime count of readings skipped for an unknown device id. -/
def totalSkipped (s : BufferState) : Nat :=
  (s.flush_log.map (fun rec => rec.result.skipped_invalid_devices)).sum

/-- Lifetime count of rows dropped on individual insert failure. -/
def totalDropped (s : BufferState) : Nat :=
  (s.flush_log.map (fun rec => rec.result.dropped_rows)).sum

/-- Contents of the currently active slot. -/
def activeContents (s : BufferState) : List Reading :=
  if s.active_buffer_a then s.buffer_a else s.buffer_b

/-! ## Pause/resume parameter path (`rs485_client.py`)

The polling scheduler is modelled by its `is_running` flag
(`polling_service.py` lines 28-95); the generic parameter read/write by pure
functions that also emit the trace of externally visible actions they
perform, in order, so that "start() is attempted" and "no bus write was
attempted" are statements about the trace. -/

/-- `PollingService` state visible to the pause/resume protocol. -/
structure SchedulerState where
  is_running : Bool
  deriving Repr, DecidableEq

/-- `PollingService.start` (lines 33-56): no-op if already running,
otherwise sets `is_running`. -/
def pollingStart (s : SchedulerState) : SchedulerState :=
  if s.is_running then s else { is_running := true }

/-- `PollingService.stop` (lines 58-95): no-op if not running, otherwise
clears `is_running` (and drains the buffer, not modelled here). -/
def pollingStop (s : SchedulerState) : SchedulerState :=
  if !s.is_running then s else { is_running := false }

/-- Externally visible actions of one parameter operation. -/
inductive ParamEvent where
  | pollingStopped
  | busConnect
  | busRead (register : Nat)
  | busWrite (register : Nat) (value : ℤ)
  | pollingStarted
  deriving Repr, DecidableEq

/-- Outcome of the bus portion of a parameter operation: `connect()`
returned False, the response was an error, the call raised, or it
succeeded (carrying the register value for reads). -/
inductive ParamBusOutcome where
  | connectFail
  | errorResponse (msg : String)
  | raised (msg : String)
  | ok (raw : Nat)
  deriving Repr, DecidableEq

/-- `read_parameter` (`rs485_client.py` lines 434-546): pause the polling
service when it is running, perform the register read, divide by the scale
factor, and in the `finally` block resume polling when it had been running —
whether or not the read succeeded. -/
def read_parameter (st : SchedulerState) (pause_polling : Bool)
    (register_address : Nat) (scale_factor : ℚ) (outcome : ParamBusOutcome) :
    SchedulerState × Except String ℚ × List ParamEvent :=
  let polling_was_running := pause_polling && st.is_running
  let st1 := if polling_was_running then pollingStop st else st
  let ev1 : List ParamEvent :=
    if polling_was_running then [ParamEvent.pollingStopped] else []
  let step : Except String ℚ × List ParamEvent :=
    match outcome with
    | ParamBusOutcome.connectFail =>
      (Except.error "Failed to connect to RS-485 device", [ParamEvent.busConnect])
    | ParamBusOutcome.errorResponse msg =>
      (Except.error ("Modbus read error: " ++ msg),
        [ParamEvent.busConnect, ParamEvent.busRead register_address])
    | ParamBusOutcome.raised msg =>
      (Except.error ("Modbus communication error: " ++ msg),
        [ParamEvent.busConnect, ParamEvent.busRead register_address])
    | ParamBusOutcome.ok raw =>
      (Except.ok ((raw : ℚ) / scale_factor),
        [ParamEvent.busConnect, ParamEvent.busRead register_address])
  let st2 := if polling_was_running then pollingStart st1 else st1
  let ev3 : List ParamEvent :=
    if polling_was_running then [ParamEvent.pollingStarted] else []
  (st2, step.1, ev1 ++ step.2 ++ ev3)

/-- `write_parameter` (`rs485_client.py` lines 549-667): pause the polling
service when it is running; validate the value against the optional
inclusive bounds BEFORE creating a client, connecting, or writing; scale and
round the value; perform the register write; and in the `finally` block
resume polling when it had been running — whether or not the write
succeeded or validation rejected it. -/
def write_parameter (st : SchedulerState) (pause_polling : Bool)
    (register_address : Nat) (value : ℚ) (scale_factor : ℚ)
    (min_value max_value : Option ℚ) (outcome : ParamBusOutcome) :
    SchedulerState × Except String Unit × List ParamEvent :=
  let polling_was_running := pause_polling && st.is_running
  let st1 := if polling_was_running then pollingStop st else st
  let ev1 : List ParamEvent :=
    if polling_was_running then [ParamEvent.pollingStopped] else []
  let below_min : Bool :=
    match min_value with
    | some m => decide (value < m)
    | none => false
  let above_max : Bool :=
    match max_value with
    | some m => decide (m < value)
    | none => false
  let step : Except String Unit × List ParamEvent :=
    if below_min then
      (Except.error "Parameter value is below minimum", [])
    else if above_max then
      (Except.error "Parameter value exceeds maximum", [])
    else
      let scaled_value := roundHalfEven (value * scale_factor)
      match outcome with
      | ParamBusOutcome.connectFail =>
        (Except.error "Failed to connect to RS-485 device",
          [ParamEvent.busConnect])
      | ParamBusOutcome.errorResponse msg =>
        (Except.error ("Modbus write error: " ++ msg),
          [ParamEvent.busConnect,
            ParamEvent.busWrite register_address scaled_value])
      | ParamBusOutcome.raised msg =>
        (Except.error ("Modbus communication error: " ++ msg),
          [ParamEvent.busConnect,
            ParamEvent.busWrite register_address scaled_value])
      | ParamBusOutcome.ok _ =>
        (Except.ok (),
          [ParamEvent.busConnect,
            ParamEvent.busWrite register_address scaled_value])
  let st2 := if polling_was_running then pollingStart st1 else st1
  let ev3 : List ParamEvent :=
    if polling_was_running then [ParamEvent.pollingStarted] else []
  (st2, step.1, ev1 ++ step.2 ++ ev3)

/-! ## Helper lemmas -/

/-- A string with a non-empty left part stays non-empty after append. -/
theorem append_ne_empty (s t : String) (h : 0 < s.length) : s ++ t ≠ "" := by
  intro hc
  have h2 := congrArg String.length hc
  rw [String.length_append] at h2
  have h3 : ("" : String).length = 0 := rfl
  omega

/-- C3: interval clamp — whenever dynamic polling is enabled and the
configured bounds are ordered, the dynamically computed poll interval for any
device count `n ≥ 0` lies between `modbus_min_poll_interval` and
`modbus_max_poll_interval`; the computation clamps
`n * per_device_time * safety_factor` to that band. -/
theorem interval_clamp (s : PollingSettings) (num_devices : Nat)
    (hdyn : s.modbus_enable_dynamic_polling = true)
    (hband : s.modbus_min_poll_interval ≤ s.modbus_max_poll_interval) :
    s.modbus_min_poll_interval ≤ calculate_dynamic_interval s num_devices ∧
    calculate_dynamic_interval s num_devices ≤ s.modbus_max_poll_interval := by
  unfold calculate_dynamic_interval
  rw [hdyn]
  simp only [Bool.not_true, Bool.false_eq_true, if_false]
  exact ⟨le_max_left _ _, max_le hband (min_le_right _ _)⟩

/-- Witness for C3 at the shipped defaults and three devices. -/
theorem interval_clamp_witness :
    defaultPollingSettings.modbus_enable_dynamic_polling = true ∧
    defaultPollingSettings.modbus_min_poll_interval ≤
      defaultPollingSettings.modbus_max_poll_interval ∧
    (defaultPollingSettings.modbus_min_poll_interval ≤
      calculate_dynamic_interval defaultPollingSettings 3 ∧
     calculate_dynamic_interval defaultPollingSettings 3 ≤
      defaultPollingSettings.modbus_max_poll_interval) :=
  ⟨rfl, by norm_num [defaultPollingSettings],
    interval_clamp defaultPollingSettings 3 rfl
      (by norm_num [defaultPollingSettings])⟩

/-- Packing two in-range 16-bit registers big-endian and reading the four
bytes back as an unsigned integer gives `r0 * 2^16 + r1`. -/
theorem bytesBE_packBE16 (r0 r1 : Nat) (h0 : r0 < 2 ^ 16) (h1 : r1 < 2 ^ 16) :
    bytesBE (packBE16 r0 ++ packBE16 r1) = r0 * 2 ^ 16 + r1 := by
  simp only [bytesBE, packBE16, List.cons_append, List.nil_append, List.foldl]
  omega

/-- C6: register decoding — with one register the decoded primary value is
the raw 16-bit register value taken as an integer; with two registers it is
the IEEE-754 binary32 value whose 32-bit pattern has the first register as
the high word and the second as the low word. -/
theorem register_decoding (r0 r1 : Nat) (h0 : r0 < 2 ^ 16) (h1 : r1 < 2 ^ 16) :
    decodePrimary 1 [r0] = some (FVal.finite (r0 : ℚ)) ∧
    decodePrimary 2 [r0, r1] = some (float32FromBits (r0 * 2 ^ 16 + r1)) := by
  refine ⟨rfl, ?_⟩
  have h : decodePrimary 2 [r0, r1] = some (decodeFloat32BE r0 r1) := rfl
  rw [h]
  unfold decodeFloat32BE
  rw [bytesBE_packBE16 r0 r1 h0 h1]

/-- Witness for C6 at registers `41C8 0000`, which decode to 25.0. -/
theorem register_decoding_witness :
    (16840 : Nat) < 2 ^ 16 ∧ (0 : Nat) < 2 ^ 16 ∧
    (decodePrimary 1 [16840] = some (FVal.finite (16840 : ℚ)) ∧
     decodePrimary 2 [16840, 0] = some (float32FromBits (16840 * 2 ^ 16 + 0))) :=
  ⟨by decide, by decide, register_decoding 16840 0 (by decide) (by decide)⟩

/-- The surviving rows of `daily_cleanup` are exactly those not strictly
older than the cutoff, in both the no-op and the deleting branch. -/
theorem daily_cleanup_kept (cutoff : ℚ) (rows : List StoredReading) :
    (daily_cleanup cutoff rows).1 =
      rows.filter (fun r => !decide (r.ts_utc < cutoff)) := by
  unfold daily_cleanup
  by_cases h : (rows.filter (fun r => decide (r.ts_utc < cutoff))).length = 0
  · simp only [h, if_true]
    have h0 := List.length_eq_zero.mp h
    have hall := List.filter_eq_nil_iff.mp h0
    symm
    exact List.filter_eq_self.mpr (fun a ha => by simpa using hall a ha)
  · simp [h]

/-- The deleted-row count of `daily_cleanup` is the number of rows strictly
older than the cutoff. -/
theorem daily_cleanup_deleted (cutoff : ℚ) (rows : List StoredReading) :
    (daily_cleanup cutoff rows).2 =
      (rows.filter (fun r => decide (r.ts_utc < cutoff))).length := by
  unfold daily_cleanup
  by_cases h : (rows.filter (fun r => decide (r.ts_utc < cutoff))).length = 0
  · simp [h]
  · simp [h]

/-- C5: retention idempotence — with the cutoff `now - retention_days`, a
second `daily_cleanup` immediately after a first (same clock reading, no
intervening inserts) deletes 0 rows; `daily_cleanup` deletes exactly the
rows strictly older than the cutoff; and when nothing is eligible it is a
no-op returning the table unchanged. -/
theorem retention_idempotence (now retention_days : ℚ)
    (rows : List StoredReading) :
    (daily_cleanup (retentionCutoff now retention_days)
      (daily_cleanup (retentionCutoff now retention_days) rows).1).2 = 0 ∧
    (daily_cleanup (retentionCutoff now retention_days) rows).1 =
      rows.filter
        (fun r => !decide (r.ts_utc < retentionCutoff now retention_days)) ∧
    (daily_cleanup (retentionCutoff now retention_days) rows).2 =
      (rows.filter
        (fun r => decide (r.ts_utc < retentionCutoff now retention_days))).length ∧
    ((rows.filter
        (fun r => decide (r.ts_utc < retentionCutoff now retention_days))).length
          = 0 →
      daily_cleanup (retentionCutoff now retention_days) rows = (rows, 0)) := by
  refine ⟨?_, daily_cleanup_kept _ rows, daily_cleanup_deleted _ rows, ?_⟩
  · rw [daily_cleanup_deleted, daily_cleanup_kept, List.filter_filter]
    have hnil :
        rows.filter (fun a =>
          decide (a.ts_utc < retentionCutoff now retention_days) &&
          !decide (a.ts_utc < retentionCutoff now retention_days)) = [] :=
      List.filter_eq_nil_iff.mpr (fun a _ => by simp)
    rw [hnil]
    rfl
  · intro h
    unfold daily_cleanup
    simp [h]

/-- Witness for C5: cutoff 10 (clock 100, 90-day window) against a table
holding one row timestamped 12 — nothing eligible, cleanup is a no-op. -/
theorem retention_idempotence_witness :
    (([⟨2, (12 : ℚ)⟩] : List StoredReading).filter
      (fun r => decide (r.ts_utc < retentionCutoff 100 90))).length = 0 ∧
    daily_cleanup (retentionCutoff 100 90) [⟨2, (12 : ℚ)⟩] =
      ([⟨2, (12 : ℚ)⟩], 0) :=
  ⟨by norm_num [retentionCutoff, List.filter],
   (retention_idempotence 100 90 [⟨2, 12⟩]).2.2.2
     (by norm_num [retentionCutoff, List.filter])⟩

/-- C8: pause/resume safety — when the scheduler is running, an on-demand
parameter read or write (with the default `pause_polling=True`) leaves
`is_running == true` afterwards and its trace contains the resume `start()`
call, whatever the bus outcome (success, error response, connection failure
or exception); when the scheduler was not running beforehand, `start()` is
never attempted. -/
theorem pause_resume_safety (st : SchedulerState) (reg : Nat)
    (value scale : ℚ) (minv maxv : Option ℚ) (oc : ParamBusOutcome) :
    (st.is_running = true →
      (read_parameter st true reg scale oc).1.is_running = true ∧
      ParamEvent.pollingStarted ∈ (read_parameter st true reg scale oc).2.2 ∧
      (write_parameter st true reg value scale minv maxv oc).1.is_running
        = true ∧
      ParamEvent.pollingStarted ∈
        (write_parameter st true reg value scale minv maxv oc).2.2) ∧
    (st.is_running = false →
      ParamEvent.pollingStarted ∉ (read_parameter st true reg scale oc).2.2 ∧
      ParamEvent.pollingStarted ∉
        (write_parameter st true reg value scale minv maxv oc).2.2) := by
  constructor
  · intro hrun
    cases oc <;>
      simp [read_parameter, write_parameter, pollingStart, pollingStop, hrun]
  · intro hstop
    cases oc <;>
      simp [read_parameter, write_parameter, pollingStart, pollingStop,
        hstop] <;>
      split <;> (try split) <;> simp

/-- Witness for C8: scheduler running, bus raises during the operation —
polling is running again afterwards and the resume appears in the trace. -/
theorem pause_resume_safety_witness :
    (⟨true⟩ : SchedulerState).is_running = true ∧
    ((read_parameter ⟨true⟩ true 4 1 (ParamBusOutcome.raised "boom")).1.is_running
        = true ∧
     ParamEvent.pollingStarted ∈
       (read_parameter ⟨true⟩ true 4 1 (ParamBusOutcome.raised "boom")).2.2 ∧
     (write_parameter ⟨true⟩ true 4 1 1 none none
         (ParamBusOutcome.raised "boom")).1.is_running = true ∧
     ParamEvent.pollingStarted ∈
       (write_parameter ⟨true⟩ true 4 1 1 none none
         (ParamBusOutcome.raised "boom")).2.2) :=
  ⟨rfl,
   (pause_resume_safety ⟨true⟩ 4 1 1 none none
     (ParamBusOutcome.raised "boom")).1 rfl⟩

/-- C9: parameter write validation — when the value lies outside the
configured inclusive bounds, `write_parameter` returns a validation error,
and its trace contains neither a connection attempt nor a register write:
the rejection happens before any bus activity, whatever the scheduler state
and whatever the bus would have answered. -/
theorem write_parameter_validation (st : SchedulerState) (pause : Bool)
    (reg : Nat) (value scale : ℚ) (minv maxv : Option ℚ)
    (oc : ParamBusOutcome)
    (hout : (∃ m, minv = some m ∧ value < m) ∨
            (∃ m, maxv = some m ∧ m < value)) :
    (∃ msg, (write_parameter st pause reg value scale minv maxv oc).2.1 =
      Except.error msg) ∧
    ParamEvent.busConnect ∉
      (write_parameter st pause reg value scale minv maxv oc).2.2 ∧
    ∀ r w, ParamEvent.busWrite r w ∉
      (write_parameter st pause reg value scale minv maxv oc).2.2 := by
  rcases hout with ⟨m, hm, hv⟩ | ⟨m, hm, hv⟩ <;> subst hm <;>
    (simp [write_parameter, pollingStart, pollingStop, hv]
     try (split <;> simp))

/-- Witness for C9: writing emissivity 2.0 against the configured bounds
[0.01, 1.30] is rejected with no bus connection and no register write. -/
theorem write_parameter_validation_witness :
    ((∃ m, (some (1 / 100) : Option ℚ) = some m ∧ (2 : ℚ) < m) ∨
     (∃ m, (some (13 / 10) : Option ℚ) = some m ∧ m < (2 : ℚ))) ∧
    ((∃ msg, (write_parameter ⟨false⟩ true 4 2 1000 (some (1 / 100))
        (some (13 / 10)) (ParamBusOutcome.ok 0)).2.1 = Except.error msg) ∧
     ParamEvent.busConnect ∉
       (write_parameter ⟨false⟩ true 4 2 1000 (some (1 / 100))
         (some (13 / 10)) (ParamBusOutcome.ok 0)).2.2 ∧
     ∀ r w, ParamEvent.busWrite r w ∉
       (write_parameter ⟨false⟩ true 4 2 1000 (some (1 / 100))
         (some (13 / 10)) (ParamBusOutcome.ok 0)).2.2) :=
  ⟨Or.inr ⟨13 / 10, rfl, by norm_num⟩,
   write_parameter_validation ⟨false⟩ true 4 2 1000 (some (1 / 100))
     (some (13 / 10)) (ParamBusOutcome.ok 0)
     (Or.inr ⟨13 / 10, rfl, by norm_num⟩)⟩

/-- C7: sanity bound — on a successful decode, a value outside [-50, 1500]
still yields a result (not discarded) with status `Err`, the decoded value
and the raw register hex retained; a value inside the band yields status
`OK`. -/
theorem sanity_bound (cfg : DeviceConfigIn) (bus : BusOutcome) (now : String)
    (regs : List Nat) (v : FVal)
    (hconn : bus.connectOk = true)
    (hfc : cfg.function_code = 3 ∨ cfg.function_code = 4)
    (hresp : bus.primaryResponse = ModbusResponse.registers regs)
    (hdec : decodePrimary cfg.register_count regs = some v) :
    (fvalInSanityRange v = false →
      (read_temperature cfg bus now).status = "Err" ∧
      (read_temperature cfg bus now).temperature = some v ∧
      (read_temperature cfg bus now).raw_hex = rawHexString regs) ∧
    (fvalInSanityRange v = true →
      (read_temperature cfg bus now).status = "OK" ∧
      (read_temperature cfg bus now).raw_hex = rawHexString regs) := by
  have hcnt : ¬(cfg.register_count ≠ 1 ∧ cfg.register_count ≠ 2) := by
    rintro ⟨h1, h2⟩
    simp [decodePrimary, h1, h2] at hdec
  have hfc2 : ¬(cfg.function_code ≠ 3 ∧ cfg.function_code ≠ 4) := by
    rcases hfc with h | h <;> simp [h]
  constructor
  · intro hs
    simp [read_temperature, hconn, hresp, hfc2, hcnt, hdec, hs]
  · intro hs
    simp [read_temperature, hconn, hresp, hfc2, hcnt, hdec, hs]

/-- Witness for C7: one-register decode of 2000 (outside the band) keeps
the value and flags `Err`. -/
theorem sanity_bound_witness :
    (⟨true, ModbusResponse.registers [2000], ModbusResponse.raised "x"⟩
        : BusOutcome).connectOk = true ∧
    ((⟨7, "pyro", 1, 9600, "COM3", 3, 1, 1⟩ : DeviceConfigIn).function_code = 3 ∨
     (⟨7, "pyro", 1, 9600, "COM3", 3, 1, 1⟩ : DeviceConfigIn).function_code = 4) ∧
    decodePrimary 1 [2000] = some (FVal.finite 2000) ∧
    fvalInSanityRange (FVal.finite 2000) = false ∧
    ((read_temperature ⟨7, "pyro", 1, 9600, "COM3", 3, 1, 1⟩
        ⟨true, ModbusResponse.registers [2000], ModbusResponse.raised "x"⟩
        "t").status = "Err" ∧
     (read_temperature ⟨7, "pyro", 1, 9600, "COM3", 3, 1, 1⟩
        ⟨true, ModbusResponse.registers [2000], ModbusResponse.raised "x"⟩
        "t").temperature = some (FVal.finite 2000) ∧
     (read_temperature ⟨7, "pyro", 1, 9600, "COM3", 3, 1, 1⟩
        ⟨true, ModbusResponse.registers [2000], ModbusResponse.raised "x"⟩
        "t").raw_hex = rawHexString [2000]) :=
  ⟨rfl, Or.inl rfl, rfl, by norm_num [fvalInSanityRange],
   (sanity_bound ⟨7, "pyro", 1, 9600, "COM3", 3, 1, 1⟩
      ⟨true, ModbusResponse.registers [2000], ModbusResponse.raised "x"⟩
      "t" [2000] (FVal.finite 2000) rfl (Or.inl rfl) rfl rfl).1
     (by norm_num [fvalInSanityRange])⟩

/-- C10 (amended): `read_temperature` is total at its interface — for every
configuration and transport outcome it returns a result record whose status
is always `"OK"` or `"Err"` (never `"Stale"`), and on `"Err"` the error
message is non-empty and the primary value is null except in the
out-of-range case, where the decoded value is retained (and fails the
sanity bound). -/
theorem read_total_interface (cfg : DeviceConfigIn) (bus : BusOutcome)
    (now : String) :
    ((read_temperature cfg bus now).status = "OK" ∨
     (read_temperature cfg bus now).status = "Err") ∧
    ((read_temperature cfg bus now).status = "Err" →
      (read_temperature cfg bus now).error_message ≠ "" ∧
      ∀ v, (read_temperature cfg bus now).temperature = some v →
        fvalInSanityRange v = false) := by
  have hne1 : ("Cannot connect to " ++ cfg.com_port) ≠ "" :=
    append_ne_empty _ _ (by decide)
  have hne2 : ("Invalid function code: " ++ toString cfg.function_code) ≠ "" :=
    append_ne_empty _ _ (by decide)
  have hne3 :
      ("Unsupported register count: " ++ toString cfg.register_count) ≠ "" :=
    append_ne_empty _ _ (by decide)
  unfold read_temperature
  by_cases hc : bus.connectOk = true
  · rw [hc]
    by_cases hfc : cfg.function_code ≠ 3 ∧ cfg.function_code ≠ 4
    · simp [hfc, initialResult, hne2]
    · cases hp : bus.primaryResponse with
      | errorResponse msg =>
        simp [hfc, hp, initialResult, append_ne_empty "Modbus error: " msg
          (by decide)]
      | raisedModbus msg =>
        simp [hfc, hp, initialResult, append_ne_empty "Modbus exception: " msg
          (by decide)]
      | raised msg =>
        simp [hfc, hp, initialResult, append_ne_empty "Unexpected error: " msg
          (by decide)]
      | registers regs =>
        by_cases hcnt : cfg.register_count ≠ 1 ∧ cfg.register_count ≠ 2
        · simp [hfc, hcnt, hp, initialResult, hne3]
        · cases hdec : decodePrimary cfg.register_count regs with
          | none =>
            have hne4 :
                ("Unexpected error: list index out of range" : String) ≠ "" :=
              by decide
            simp [hfc, hcnt, hp, hdec, initialResult, hne4]
          | some v =>
            by_cases hs : fvalInSanityRange v = true
            · simp [hfc, hcnt, hp, hdec, hs, initialResult]
            · have hne5 : ("Temperature out of range" : String) ≠ "" :=
                by decide
              have hs2 : fvalInSanityRange v = false :=
                Bool.not_eq_true _ ▸ Bool.eq_false_iff.mpr hs
              simp [hfc, hcnt, hp, hdec, hs2, initialResult, hne5]
  · simp [hc, initialResult, hne1]

/-- Counterexample to C10 as stated: a successfully decoded out-of-range
value (register 2000 in one-register mode) yields status `Err` with a
NON-null primary value — the claim that `Err` always comes with a null
value fails here. -/
theorem read_err_value_not_null :
    (read_temperature ⟨7, "pyro", 1, 9600, "COM3", 3, 1, 1⟩
      ⟨true, ModbusResponse.registers [2000], ModbusResponse.raised "x"⟩
      "t").status = "Err" ∧
    (read_temperature ⟨7, "pyro", 1, 9600, "COM3", 3, 1, 1⟩
      ⟨true, ModbusResponse.registers [2000], ModbusResponse.raised "x"⟩
      "t").temperature = some (FVal.finite 2000) := by
  constructor <;>
    norm_num [read_temperature, initialResult, decodePrimary,
      fvalInSanityRange, readAmbient]

/-- Witness for the amended C10 at a concrete connection failure. -/
theorem read_total_interface_witness :
    (read_temperature ⟨7, "pyro", 1, 9600, "COM3", 3, 1, 1⟩
      ⟨false, ModbusResponse.raised "x", ModbusResponse.raised "x"⟩
      "t").status = "Err" ∧
    ((read_temperature ⟨7, "pyro", 1, 9600, "COM3", 3, 1, 1⟩
        ⟨false, ModbusResponse.raised "x", ModbusResponse.raised "x"⟩
        "t").error_message ≠ "" ∧
     ∀ v, (read_temperature ⟨7, "pyro", 1, 9600, "COM3", 3, 1, 1⟩
        ⟨false, ModbusResponse.raised "x", ModbusResponse.raised "x"⟩
        "t").temperature = some v → fvalInSanityRange v = false) :=
  ⟨rfl,
   (read_total_interface ⟨7, "pyro", 1, 9600, "COM3", 3, 1, 1⟩
      ⟨false, ModbusResponse.raised "x", ModbusResponse.raised "x"⟩
      "t").2 rfl⟩

/-- On an exceeded ceiling, `cleanup_on_buffer_flush` deletes by id exactly
the first `count - max_rows` rows of the timestamp-sorted table. -/
theorem cleanup_exceed (max_rows : Nat) (rows : List StoredReading)
    (h : max_rows < rows.length) :
    cleanup_on_buffer_flush max_rows rows =
      (rows.filter (fun r =>
        !(((sortByTimestamp rows).take (rows.length - max_rows)).map
            (fun x => x.id)).contains r.id),
       (sortByTimestamp rows).take (rows.length - max_rows)) := by
  unfold cleanup_on_buffer_flush
  simp [h]

/-- With the ceiling not exceeded, `cleanup_on_buffer_flush` is a no-op. -/
theorem cleanup_noop (max_rows : Nat) (rows : List StoredReading)
    (h : ¬ max_rows < rows.length) :
    cleanup_on_buffer_flush max_rows rows = (rows, []) := by
  unfold cleanup_on_buffer_flush
  simp [h]

/-- Dropping, by id, the first `n` rows of the sorted table from the
original table leaves a permutation of the remaining sorted suffix
(ids must be distinct, as they are for a primary-key column). -/
theorem kept_perm_drop (n : Nat) (rows : List StoredReading)
    (hnodup : (rows.map (fun r => r.id)).Nodup) :
    (rows.filter (fun r =>
      !(((sortByTimestamp rows).take n).map (fun x => x.id)).contains
        r.id)).Perm
      ((sortByTimestamp rows).drop n) := by
  have hperm : (sortByTimestamp rows).Perm rows :=
    List.perm_insertionSort _ rows
  have hsplit :
      (sortByTimestamp rows).take n ++ (sortByTimestamp rows).drop n =
        sortByTimestamp rows :=
    List.take_append_drop _ _
  have hnodup2 : ((sortByTimestamp rows).map (fun r => r.id)).Nodup :=
    hnodup.perm (hperm.map (fun r => r.id)).symm
  have hdisj :
      ∀ a ∈ (sortByTimestamp rows).drop n,
        a.id ∉ ((sortByTimestamp rows).take n).map (fun x => x.id) := by
    intro a ha hmem
    rw [← hsplit, List.map_append, List.nodup_append] at hnodup2
    exact hnodup2.2.2 hmem (List.mem_map_of_mem (fun x => x.id) ha)
  set p : StoredReading → Bool := fun r =>
    !(((sortByTimestamp rows).take n).map (fun x => x.id)).contains r.id
    with hp
  have h1 : ((sortByTimestamp rows).take n).filter p = [] :=
    List.filter_eq_nil_iff.mpr (fun a ha => by
      have hm : a.id ∈ ((sortByTimestamp rows).take n).map (fun x => x.id) :=
        List.mem_map_of_mem _ ha
      rw [List.map_take] at hm
      simp [hp, hm])
  have h2 : ((sortByTimestamp rows).drop n).filter p =
      (sortByTimestamp rows).drop n :=
    List.filter_eq_self.mpr (fun a ha => by
      have hd := hdisj a ha
      rw [List.map_take] at hd
      simp [hp, hd])
  have hfilter : (sortByTimestamp rows).filter p =
      (sortByTimestamp rows).drop n := by
    nth_rewrite 1 [← hsplit]
    rw [List.filter_append, h1, h2, List.nil_append]
  calc (rows.filter p).Perm ((sortByTimestamp rows).filter p) :=
        (hperm.filter p).symm
    _ = (sortByTimestamp rows).drop n := hfilter

/-- C4: row ceiling — after `cleanup_on_buffer_flush` the table holds at
most `max_rows` rows; when the count exceeded the ceiling the deleted rows
are exactly the `count - max_rows` oldest by timestamp (every deleted row is
no newer than every kept row, and nothing else is lost); otherwise no rows
are deleted.  Ids are assumed distinct, as for a primary-key column. -/
theorem row_ceiling (max_rows : Nat) (rows : List StoredReading)
    (hnodup : (rows.map (fun r => r.id)).Nodup) :
    (cleanup_on_buffer_flush max_rows rows).1.length ≤ max_rows ∧
    ((cleanup_on_buffer_flush max_rows rows).1 ++
      (cleanup_on_buffer_flush max_rows rows).2).Perm rows ∧
    (max_rows < rows.length →
      (cleanup_on_buffer_flush max_rows rows).2 =
        (sortByTimestamp rows).take (rows.length - max_rows) ∧
      (cleanup_on_buffer_flush max_rows rows).2.length =
        rows.length - max_rows ∧
      ∀ d ∈ (cleanup_on_buffer_flush max_rows rows).2,
        ∀ k ∈ (cleanup_on_buffer_flush max_rows rows).1,
          d.ts_utc ≤ k.ts_utc) ∧
    (rows.length ≤ max_rows →
      cleanup_on_buffer_flush max_rows rows = (rows, [])) := by
  have hperm : (sortByTimestamp rows).Perm rows :=
    List.perm_insertionSort _ rows
  have hlen : (sortByTimestamp rows).length = rows.length := hperm.length_eq
  by_cases h : max_rows < rows.length
  · have hkd := kept_perm_drop (rows.length - max_rows) rows hnodup
    have hdroptake :
        ((sortByTimestamp rows).drop (rows.length - max_rows) ++
          (sortByTimestamp rows).take (rows.length - max_rows)).Perm rows := by
      have h3 :
          ((sortByTimestamp rows).drop (rows.length - max_rows) ++
            (sortByTimestamp rows).take (rows.length - max_rows)).Perm
          ((sortByTimestamp rows).take (rows.length - max_rows) ++
            (sortByTimestamp rows).drop (rows.length - max_rows)) :=
        List.perm_append_comm
      rw [List.take_append_drop] at h3
      exact h3.trans hperm
    rw [cleanup_exceed max_rows rows h]
    have hkeptlen :
        (rows.filter (fun r =>
          !(((sortByTimestamp rows).take (rows.length - max_rows)).map
              (fun x => x.id)).contains r.id)).length = max_rows := by
      rw [hkd.length_eq, List.length_drop, hlen]
      omega
    refine ⟨le_of_eq hkeptlen, (hkd.append_right _).trans hdroptake,
      fun _ => ⟨rfl, ?_, ?_⟩, fun h2 => by omega⟩
    · simp only [List.length_take, hlen]
      omega
    · intro d hd k hk
      have hsorted : List.Sorted tsLe (sortByTimestamp rows) :=
        List.sorted_insertionSort _ rows
      have hpw : List.Pairwise tsLe
          ((sortByTimestamp rows).take (rows.length - max_rows) ++
            (sortByTimestamp rows).drop (rows.length - max_rows)) := by
        rw [List.take_append_drop]
        exact hsorted
      have hk2 : k ∈ (sortByTimestamp rows).drop (rows.length - max_rows) :=
        hkd.mem_iff.mp hk
      exact (List.pairwise_append.mp hpw).2.2 d hd k hk2
  · rw [cleanup_noop max_rows rows h]
    refine ⟨by simpa using Nat.le_of_not_lt h, by simp, fun h2 => by omega,
      fun _ => rfl⟩

/-- Witness for C4: ceiling 1 against a two-row table with distinct ids;
the single oldest row (timestamp 3) is deleted, the newer one kept. -/
theorem row_ceiling_witness :
    (([⟨1, (5 : ℚ)⟩, ⟨2, 3⟩] : List StoredReading).map
      (fun r => r.id)).Nodup ∧
    ((cleanup_on_buffer_flush 1 [⟨1, (5 : ℚ)⟩, ⟨2, 3⟩]).1.length ≤ 1 ∧
     ((cleanup_on_buffer_flush 1 [⟨1, (5 : ℚ)⟩, ⟨2, 3⟩]).1 ++
       (cleanup_on_buffer_flush 1 [⟨1, (5 : ℚ)⟩, ⟨2, 3⟩]).2).Perm
         [⟨1, (5 : ℚ)⟩, ⟨2, 3⟩] ∧
     ((1 : Nat) < ([⟨1, (5 : ℚ)⟩, ⟨2, 3⟩] : List StoredReading).length →
       (cleanup_on_buffer_flush 1 [⟨1, (5 : ℚ)⟩, ⟨2, 3⟩]).2 =
         (sortByTimestamp [⟨1, (5 : ℚ)⟩, ⟨2, 3⟩]).take
           (([⟨1, (5 : ℚ)⟩, ⟨2, 3⟩] : List StoredReading).length - 1) ∧
       (cleanup_on_buffer_flush 1 [⟨1, (5 : ℚ)⟩, ⟨2, 3⟩]).2.length =
         ([⟨1, (5 : ℚ)⟩, ⟨2, 3⟩] : List StoredReading).length - 1 ∧
       ∀ d ∈ (cleanup_on_buffer_flush 1 [⟨1, (5 : ℚ)⟩, ⟨2, 3⟩]).2,
         ∀ k ∈ (cleanup_on_buffer_flush 1 [⟨1, (5 : ℚ)⟩, ⟨2, 3⟩]).1,
           d.ts_utc ≤ k.ts_utc) ∧
     (([⟨1, (5 : ℚ)⟩, ⟨2, 3⟩] : List StoredReading).length ≤ 1 →
       cleanup_on_buffer_flush 1 [⟨1, (5 : ℚ)⟩, ⟨2, 3⟩] =
         ([⟨1, (5 : ℚ)⟩, ⟨2, 3⟩], []))) :=
  ⟨by decide, row_ceiling 1 [⟨1, 5⟩, ⟨2, 3⟩] (by decide)⟩

/-- One `_save_buffer_to_db` call accounts for every reading it was handed:
committed rows plus skipped invalid-device readings plus dropped rows equal
the batch size. -/
theorem save_conservation (validIds : List Nat) (oc : FlushOutcome)
    (readings : List Reading) :
    (save_buffer_to_db validIds oc readings).persisted.length +
    (save_buffer_to_db validIds oc readings).skipped_invalid_devices +
    (save_buffer_to_db validIds oc readings).dropped_rows =
      readings.length := by
  have hpart :=
    List.length_eq_length_filter_add
      (l := readings) (fun r => validIds.contains r.device_id)
  unfold save_buffer_to_db
  dsimp only
  split
  · next he =>
    rw [List.isEmpty_iff.mp he]
    simp
  · next he =>
    split
    · next hdb =>
      have h0 :
          (readings.filter (fun r => validIds.contains r.device_id)).length
            = 0 := by
        have h1 := congrArg List.length (List.isEmpty_iff.mp hdb)
        simpa using h1
      dsimp only
      simp only [List.length_nil]
      omega
    · next hdb =>
      split
      · next hb =>
        dsimp only
        simp only [List.length_map]
        omega
      · next hb =>
        have hpart2 :=
          List.length_eq_length_filter_add
            (l := (readings.filter
              (fun r => validIds.contains r.device_id)).map
                toDeviceReadingRow) oc.rowOk
        simp only [List.length_map] at hpart2
        dsimp only
        omega

/-- The rows committed by one `_save_buffer_to_db` call are the images of a
subsequence of the batch: no reading is committed twice and nothing outside
the batch is committed. -/
theorem save_persisted_shape (validIds : List Nat) (oc : FlushOutcome)
    (readings : List Reading) :
    ∃ sub : List Reading, sub.Sublist readings ∧
      (save_buffer_to_db validIds oc readings).persisted =
        sub.map toDeviceReadingRow := by
  unfold save_buffer_to_db
  dsimp only
  split
  · exact ⟨[], by simp, rfl⟩
  · split
    · exact ⟨[], by simp, rfl⟩
    · split
      · exact ⟨readings.filter (fun r => validIds.contains r.device_id),
          List.filter_sublist _, rfl⟩
      · refine ⟨(readings.filter
            (fun r => validIds.contains r.device_id)).filter
              (fun r => oc.rowOk (toDeviceReadingRow r)),
          (List.filter_sublist _).trans (List.filter_sublist _), ?_⟩
        dsimp only
        rw [List.filter_map]
        rfl

/-- Invariant of the buffer run: the inactive slot is empty; the flushed
batches followed by the active slot hold exactly the readings processed so
far, in order; and every logged flush result is what `save_buffer_to_db`
returns on its logged batch and outcome. -/
def BufInv (validIds : List Nat) (processed : List Reading)
    (s : BufferState) : Prop :=
  (if s.active_buffer_a then s.buffer_b = [] else s.buffer_a = []) ∧
  (flushedBatches s).flatten ++ activeContents s = processed ∧
  ∀ rec ∈ s.flush_log,
    rec.result = save_buffer_to_db validIds rec.outcome rec.batch

/-- The freshly initialised buffer satisfies the invariant with nothing
processed. -/
theorem bufInv_init (validIds : List Nat) :
    BufInv validIds [] initBufferState := by
  refine ⟨by simp [initBufferState], ?_, ?_⟩
  · simp [flushedBatches, activeContents, initBufferState]
  · intro rec hrec
    simp [initBufferState] at hrec

/-- `add_reading` preserves the invariant, extending the processed list. -/
theorem add_reading_inv (max_size : Nat) (validIds : List Nat)
    (ocs : Nat → FlushOutcome) (processed : List Reading) (s : BufferState)
    (r : Reading) (h : BufInv validIds processed s) :
    BufInv validIds (processed ++ [r])
      (add_reading max_size validIds ocs s r) := by
  obtain ⟨h1, h2, h3⟩ := h
  unfold add_reading
  by_cases hA : s.active_buffer_a = true
  · have h1b : s.buffer_b = [] := by simpa [hA] using h1
    have h2a : (flushedBatches s).flatten ++ s.buffer_a = processed := by
      simpa [activeContents, hA] using h2
    rw [if_pos hA]
    by_cases hth : max_size ≤ (s.buffer_a ++ [r]).length
    · rw [if_pos hth]
      refine ⟨by simp [doFlush], ?_, ?_⟩
      · simp only [doFlush, flushedBatches, activeContents, List.map_append,
          List.flatten_append, List.map_cons, List.map_nil, List.flatten_cons,
          List.flatten_nil, List.append_nil, Bool.false_eq_true, if_false,
          h1b]
        rw [← List.append_assoc]
        exact congrArg (fun l => l ++ [r]) h2a
      · intro rec hrec
        simp only [doFlush, List.mem_append, List.mem_singleton] at hrec
        rcases hrec with hrec | hrec
        · exact h3 rec hrec
        · subst hrec
          rfl
    · rw [if_neg hth]
      refine ⟨by simp [hA, h1b], ?_, h3⟩
      simp only [flushedBatches, activeContents, hA, if_true]
      rw [← List.append_assoc]
      exact congrArg (fun l => l ++ [r]) h2a
  · have h1a : s.buffer_a = [] := by simpa [hA] using h1
    have h2b : (flushedBatches s).flatten ++ s.buffer_b = processed := by
      simpa [activeContents, hA] using h2
    rw [if_neg hA]
    by_cases hth : max_size ≤ (s.buffer_b ++ [r]).length
    · rw [if_pos hth]
      refine ⟨by simp [doFlush], ?_, ?_⟩
      · simp only [doFlush, flushedBatches, activeContents, List.map_append,
          List.flatten_append, List.map_cons, List.map_nil, List.flatten_cons,
          List.flatten_nil, List.append_nil, if_true, h1a]
        rw [← List.append_assoc]
        exact congrArg (fun l => l ++ [r]) h2b
      · intro rec hrec
        simp only [doFlush, List.mem_append, List.mem_singleton] at hrec
        rcases hrec with hrec | hrec
        · exact h3 rec hrec
        · subst hrec
          rfl
    · rw [if_neg hth]
      refine ⟨by simp [hA, h1a], ?_, h3⟩
      simp only [flushedBatches, activeContents, hA, Bool.false_eq_true,
        if_false]
      rw [← List.append_assoc]
      exact congrArg (fun l => l ++ [r]) h2b

/-- After the shutdown `flush_all`, the flushed batches hold exactly the
processed readings, and every logged flush still matches
`save_buffer_to_db`. -/
theorem flush_all_spec (validIds : List Nat) (ocs : Nat → FlushOutcome)
    (processed : List Reading) (s : BufferState)
    (h : BufInv validIds processed s) :
    (flushedBatches (flush_all validIds ocs s)).flatten = processed ∧
    ∀ rec ∈ (flush_all validIds ocs s).flush_log,
      rec.result = save_buffer_to_db validIds rec.outcome rec.batch := by
  obtain ⟨h1, h2, h3⟩ := h
  unfold flush_all
  by_cases hA : s.active_buffer_a = true
  · have h1b : s.buffer_b = [] := by simpa [hA] using h1
    have h2a : (flushedBatches s).flatten ++ s.buffer_a = processed := by
      simpa [activeContents, hA] using h2
    by_cases hae : s.buffer_a.isEmpty = true
    · rw [if_pos hae]
      rw [if_pos (by simp [h1b])]
      rw [List.isEmpty_iff.mp hae, List.append_nil] at h2a
      exact ⟨h2a, h3⟩
    · rw [if_neg hae]
      rw [if_pos (by simp [doFlush, h1b])]
      refine ⟨?_, ?_⟩
      · simp only [doFlush, flushedBatches, List.map_append, List.map_cons,
          List.map_nil, List.flatten_append, List.flatten_cons,
          List.flatten_nil, List.append_nil]
        exact h2a
      · intro rec hrec
        simp only [doFlush, List.mem_append, List.mem_singleton] at hrec
        rcases hrec with hrec | hrec
        · exact h3 rec hrec
        · subst hrec
          rfl
  · have h1a : s.buffer_a = [] := by simpa [hA] using h1
    have h2b : (flushedBatches s).flatten ++ s.buffer_b = processed := by
      simpa [activeContents, hA] using h2
    have hae : s.buffer_a.isEmpty = true := by simp [h1a]
    rw [if_pos hae]
    by_cases hbe : s.buffer_b.isEmpty = true
    · rw [if_pos hbe]
      rw [List.isEmpty_iff.mp hbe, List.append_nil] at h2b
      exact ⟨h2b, h3⟩
    · rw [if_neg hbe]
      refine ⟨?_, ?_⟩
      · simp only [doFlush, flushedBatches, List.map_append, List.map_cons,
          List.map_nil, List.flatten_append, List.flatten_cons,
          List.flatten_nil, List.append_nil]
        exact h2b
      · intro rec hrec
        simp only [doFlush, List.mem_append, List.mem_singleton] at hrec
        rcases hrec with hrec | hrec
        · exact h3 rec hrec
        · subst hrec
          rfl

/-- The whole `add_reading` run satisfies the invariant with every reading
processed. -/
theorem run_adds_inv (max_size : Nat) (validIds : List Nat)
    (ocs : Nat → FlushOutcome) (readings : List Reading) :
    BufInv validIds readings (run_adds max_size validIds ocs readings) := by
  have hgen : ∀ (xs : List Reading) (s : BufferState) (acc : List Reading),
      BufInv validIds acc s →
      BufInv validIds (acc ++ xs)
        (xs.foldl (add_reading max_size validIds ocs) s) := by
    intro xs
    induction xs with
    | nil =>
      intro s acc h
      simpa using h
    | cons x xs ih =>
      intro s acc h
      have hstep := add_reading_inv max_size validIds ocs acc s x h
      have := ih _ (acc ++ [x]) hstep
      simpa using this
  simpa using hgen readings initBufferState [] (bufInv_init validIds)

/-- Flattening per-flush subsequences yields a subsequence of the flattened
batches. -/
theorem flatten_persisted_sublist (validIds : List Nat)
    (log : List FlushRecord)
    (h : ∀ rec ∈ log,
      rec.result = save_buffer_to_db validIds rec.outcome rec.batch) :
    ∃ sub : List Reading,
      sub.Sublist ((log.map (fun rec => rec.batch)).flatten) ∧
      (log.map (fun rec => rec.result.persisted)).flatten =
        sub.map toDeviceReadingRow := by
  induction log with
  | nil =>
    exact ⟨[], by simp, by simp⟩
  | cons rec log ih =>
    obtain ⟨s2, hs2, hp2⟩ := ih (fun x hx => h x (List.mem_cons_of_mem _ hx))
    obtain ⟨s1, hs1, hp1⟩ :=
      save_persisted_shape validIds rec.outcome rec.batch
    rw [← h rec (List.mem_cons_self rec log)] at hp1
    refine ⟨s1 ++ s2, ?_, ?_⟩
    · simpa using List.Sublist.append hs1 hs2
    · simp [hp1, hp2]

/-- C1: buffer conservation — over any sequence of `add_reading` calls
followed by the shutdown `flush_all`, the rows durably persisted plus the
readings skipped for an unknown device id plus the rows dropped on
individual insert failure equal the number of `add_reading` calls; and the
persisted rows are the images of a subsequence of the input readings, so no
reading is persisted more than once. -/
theorem buffer_conservation (max_size : Nat) (validIds : List Nat)
    (ocs : Nat → FlushOutcome) (readings : List Reading) :
    totalPersisted (run_and_flush_all max_size validIds ocs readings) +
    totalSkipped (run_and_flush_all max_size validIds ocs readings) +
    totalDropped (run_and_flush_all max_size validIds ocs readings) =
      readings.length ∧
    ∃ sub : List Reading, sub.Sublist readings ∧
      persistedRows (run_and_flush_all max_size validIds ocs readings) =
        sub.map toDeviceReadingRow := by
  have hspec := flush_all_spec validIds ocs readings
    (run_adds max_size validIds ocs readings)
    (run_adds_inv max_size validIds ocs readings)
  constructor
  · unfold totalPersisted totalSkipped totalDropped
    have hsum :
        ((run_and_flush_all max_size validIds ocs readings).flush_log.map
          (fun rec => rec.result.persisted.length)).sum +
        ((run_and_flush_all max_size validIds ocs readings).flush_log.map
          (fun rec => rec.result.skipped_invalid_devices)).sum +
        ((run_and_flush_all max_size validIds ocs readings).flush_log.map
          (fun rec => rec.result.dropped_rows)).sum =
        ((run_and_flush_all max_size validIds ocs readings).flush_log.map
          (fun rec => rec.result.persisted.length +
            rec.result.skipped_invalid_devices +
            rec.result.dropped_rows)).sum := by
      rw [← List.sum_map_add, ← List.sum_map_add]
    rw [hsum]
    have hcong :
        ((run_and_flush_all max_size validIds ocs readings).flush_log.map
          (fun rec => rec.result.persisted.length +
            rec.result.skipped_invalid_devices +
            rec.result.dropped_rows)) =
        ((run_and_flush_all max_size validIds ocs readings).flush_log.map
          (fun rec => rec.batch.length)) := by
      refine List.map_congr_left (fun rec hrec => ?_)
      rw [hspec.2 rec hrec]
      exact save_conservation validIds rec.outcome rec.batch
    rw [hcong]
    have hlenflat :=
      List.length_flatten
        ((run_and_flush_all max_size validIds ocs readings).flush_log.map
          (fun rec => rec.batch))
    rw [List.map_map] at hlenflat
    simp only [Function.comp_def] at hlenflat
    have hflat :
        ((run_and_flush_all max_size validIds ocs readings).flush_log.map
          (fun rec => rec.batch)).flatten = readings := hspec.1
    rw [← hlenflat, hflat]
  · obtain ⟨sub, hsub, hp⟩ :=
      flatten_persisted_sublist validIds
        (run_and_flush_all max_size validIds ocs readings).flush_log hspec.2
    have hflat2 :
        ((run_and_flush_all max_size validIds ocs readings).flush_log.map
          (fun rec => rec.batch)).flatten = readings := hspec.1
    rw [hflat2] at hsub
    exact ⟨sub, hsub, hp⟩

/-- Counterexample to C2 as stated: a reading whose decode failed
(`temperature` null) is flushed with a persisted `value` of `0.0`, not
null — the flush substitutes a different value (line 140 of
`buffer_service.py`; the schema's `value` column is `nullable=False`). -/
theorem flush_value_counterexample :
    (save_buffer_to_db [1] ⟨true, fun _ => true⟩
      [⟨1, "pyro", none, none, "Err", "00C8", 0⟩]).persisted =
      [⟨1, "pyro", 0, FVal.finite 0, none, "Err", "00C8"⟩] ∧
    (⟨1, "pyro", none, none, "Err", "00C8", 0⟩ : Reading).temperature
      = none := by
  constructor
  · norm_num [save_buffer_to_db, toDeviceReadingRow, List.filter]
  · rfl

/-- C2 (amended): every row persisted by a flush is the image of one input
reading, with the persisted `value` equal to the reading's primary value
when that value is non-null, and equal to `0.0` (not null) when decode
failed. -/
theorem flush_value_preservation (validIds : List Nat) (oc : FlushOutcome)
    (readings : List Reading) (d : DeviceReadingRow)
    (hd : d ∈ (save_buffer_to_db validIds oc readings).persisted) :
    ∃ r ∈ readings, d = toDeviceReadingRow r ∧
      (∀ v, r.temperature = some v → d.value = v) ∧
      (r.temperature = none → d.value = FVal.finite 0) := by
  obtain ⟨sub, hsub, hp⟩ := save_persisted_shape validIds oc readings
  rw [hp] at hd
  obtain ⟨r, hr, hdr⟩ := List.mem_map.mp hd
  refine ⟨r, hsub.subset hr, hdr.symm, ?_, ?_⟩
  · intro v hv
    rw [← hdr]
    simp [toDeviceReadingRow, hv]
  · intro hv
    rw [← hdr]
    simp [toDeviceReadingRow, hv]

/-- Witness for the amended C2: a decoded reading of 25.0 is persisted with
value 25.0. -/
theorem flush_value_preservation_witness :
    (⟨1, "pyro", 0, FVal.finite 25, none, "OK", "41C8 0000"⟩
        : DeviceReadingRow) ∈
      (save_buffer_to_db [1] ⟨true, fun _ => true⟩
        [⟨1, "pyro", some (FVal.finite 25), none, "OK", "41C8 0000", 0⟩]).persisted ∧
    ∃ r ∈ ([⟨1, "pyro", some (FVal.finite 25), none, "OK", "41C8 0000", 0⟩]
        : List Reading),
      (⟨1, "pyro", 0, FVal.finite 25, none, "OK", "41C8 0000"⟩
        : DeviceReadingRow) = toDeviceReadingRow r ∧
      (∀ v, r.temperature = some v →
        (⟨1, "pyro", 0, FVal.finite 25, none, "OK", "41C8 0000"⟩
          : DeviceReadingRow).value = v) ∧
      (r.temperature = none →
        (⟨1, "pyro", 0, FVal.finite 25, none, "OK", "41C8 0000"⟩
          : DeviceReadingRow).value = FVal.finite 0) :=
  ⟨by norm_num [save_buffer_to_db, toDeviceReadingRow, List.filter],
   flush_value_preservation [1] ⟨true, fun _ => true⟩
     [⟨1, "pyro", some (FVal.finite 25), none, "OK", "41C8 0000", 0⟩]
     ⟨1, "pyro", 0, FVal.finite 25, none, "OK", "41C8 0000"⟩
     (by norm_num [save_buffer_to_db, toDeviceReadingRow, List.filter])⟩
